import Mathlib

/-!
Verification development for the SlopScan multi-language code-feature
extraction engine (`src/backend/app/services/code_extractor.py`) and the
similarity projector (`src/backend/app/services/github.py`).

The Python code is shallowly embedded: every definition below is translated
from the named source function.  The external tree-sitter grammars are not
part of the repository; they enter only through an explicit `parse`
parameter (the grammar's concrete output on the inputs a claim exercises is
supplied as a hypothesis or a concrete tree, documented where it happens).
Python's `list(set(...))` is modelled as `List.dedup` (set iteration order
is unspecified in Python; no claim concerns the order of deduplicated
output).  Python strings are modelled as Lean `String` (well-formed Unicode;
`len` = `String.length` counts code points) and the character predicates
(`isupper`, `islower`, `\w`, whitespace) are modelled at ASCII, which covers
every character the embedded code paths inspect.
-/

namespace SlopScan

/-- Python `str.strip(chars)` on the underlying character list: remove the
maximal leading and the maximal trailing run of characters that belong to
`chars`.  (Note Python strips *every* such character from both ends, not a
single layer.) -/
def stripChars (chars : List Char) (l : List Char) : List Char :=
  (l.dropWhile (fun c => chars.contains c)).rdropWhile (fun c => chars.contains c)

/-- Python `str.strip(chars)` at the `String` level. -/
def pyStrip (chars : List Char) (s : String) : String :=
  String.mk (stripChars chars s.data)

/-- The character set of `s.strip('"\'')` in
`code_extractor.py:157`. -/
def quoteSet : List Char := ['"', '\'']

/-- ASCII whitespace stripped by Python `str.strip()` with no argument. -/
def pyWs : List Char := [' ', '\t', '\n', '\r', '\x0B', '\x0C']

/-- Python `str.strip()` (whitespace trimming), used at
`code_extractor.py:160-161` and in the per-language docstring recognizers. -/
def pyStripWs (s : String) : String := pyStrip pyWs s

/-- The output record of the extractor: `CodeFeatures` dataclass,
`code_extractor.py:9-20`. -/
structure CodeFeatures where
  strings : List String
  function_names : List String
  variable_names : List String
  comments : List String
  docstrings : List String
  class_names : List String
  method_names : List String
  imports : List String
  language : String
  file_path : Option String
deriving DecidableEq, Repr

/-- The eight list slots of a `CodeFeatures` before the `language` and
`file_path` tags are attached.  The per-language extraction functions of the
source only ever append to these list fields, so they are embedded as
functions on this record. -/
structure RawFeatures where
  strings : List String
  function_names : List String
  variable_names : List String
  comments : List String
  docstrings : List String
  class_names : List String
  method_names : List String
  imports : List String
deriving DecidableEq, Repr

def emptyRaw : RawFeatures := ⟨[], [], [], [], [], [], [], []⟩

/-- Normalization of the `strings` slot, `code_extractor.py:157`:
`list(set(s.strip('"\'') for s in features.strings if len(s.strip('"\'')) > 2))`. -/
def normStrings (l : List String) : List String :=
  (l.filterMap fun s =>
    let t := pyStrip quoteSet s
    if 2 < t.length then some t else none).dedup

/-- Normalization of the `comments` (`bound = 5`, `code_extractor.py:160`)
and `docstrings` (`bound = 10`, line 161) slots:
`list(set(c.strip() for c in ... if len(c.strip()) > bound))`. -/
def normTrimmed (bound : Nat) (l : List String) : List String :=
  (l.filterMap fun s =>
    let t := pyStripWs s
    if bound < t.length then some t else none).dedup

/-- The normalization step of `extract_features`,
`code_extractor.py:157-164`: per-slot quote/whitespace stripping, minimum
length filtering and `list(set(...))` deduplication; identifier and import
slots are deduplicated only.  `language` and `file_path` are untouched. -/
def normalizeFeatures (f : CodeFeatures) : CodeFeatures :=
  { strings := normStrings f.strings
    function_names := f.function_names.dedup
    variable_names := f.variable_names.dedup
    comments := normTrimmed 5 f.comments
    docstrings := normTrimmed 10 f.docstrings
    class_names := f.class_names.dedup
    method_names := f.method_names.dedup
    imports := f.imports.dedup
    language := f.language
    file_path := f.file_path }

/-- Concrete syntax tree produced by a tree-sitter grammar, in
first-child/next-sibling form so that every traversal below is structurally
recursive.  `ty` is the node kind (`node.type`), `field` the field name this
node occupies in its parent (`child_by_field_name` looks it up), `text` the
source span `code[node.start_byte:node.end_byte]`, `children` the chain of
child nodes (`node.children`), and `next` the following sibling
(`node.next_sibling`). -/
inductive TSTree where
  | nil : TSTree
  | node (ty : String) (field : Option String) (text : String)
      (children : TSTree) (next : TSTree) : TSTree
deriving DecidableEq, Repr

namespace TSTree

/-- `node.type` of the head node of a chain (`""` for the empty chain). -/
def headTy : TSTree → String
  | .nil => ""
  | .node ty _ _ _ _ => ty

/-- Source text of the head node of a chain. -/
def headText : TSTree → String
  | .nil => ""
  | .node _ _ tx _ _ => tx

/-- `node.child_by_field_name(f)`: first node of the chain occupying field
`f`. -/
def childByField (f : String) : TSTree → Option TSTree
  | .nil => none
  | .node ty fl tx cs nx =>
      if fl = some f then some (.node ty fl tx cs nx) else childByField f nx

end TSTree

/-- Substring search on character lists: does `needle` occur contiguously in
`hay`? -/
def isInfixChars (needle : List Char) : List Char → Bool
  | [] => needle.isEmpty
  | b :: bs => needle.isPrefixOf (b :: bs) || isInfixChars needle bs

/-- Python `needle in hay` for strings (substring containment). -/
def pyContains (hay needle : String) : Bool :=
  isInfixChars needle.data hay.data

/-- Python `s.startswith(pre)` (character-list implementation). -/
def strStartsWith (s pre : String) : Bool :=
  pre.data.isPrefixOf s.data

/-- Python `s.endswith(suf)` (character-list implementation). -/
def strEndsWith (s suf : String) : Bool :=
  suf.data.reverse.isPrefixOf s.data.reverse

/-- Node kinds skipped when locating the first statement of a block in the
Python docstring heuristic, `code_extractor.py:187`. -/
def pyTrivialTy (ty : String) : Bool :=
  ty = "newline" || ty = "indent" || ty = "dedent" || ty = ":"

/-- The quote-delimiter stripping loop of the Python docstring recognizer,
`code_extractor.py:190-193`: the first delimiter among triple-double,
triple-single, double and single quotes that both starts and ends the text
is removed from both ends (`content[len(quote):-len(quote)]`). -/
def stripPyQuoteDelims (s : String) : String :=
  if strStartsWith s "\"\"\"" && strEndsWith s "\"\"\"" then (s.drop 3).dropRight 3
  else if strStartsWith s "'''" && strEndsWith s "'''" then (s.drop 3).dropRight 3
  else if strStartsWith s "\"" && strEndsWith s "\"" then (s.drop 1).dropRight 1
  else if strStartsWith s "'" && strEndsWith s "'" then (s.drop 1).dropRight 1
  else s

/-- `TreeSitterExtractor._extract_python_features`,
`code_extractor.py:168-227`, as a fold over a sibling chain.  `anc` is the
ancestor stack, each entry a node kind paired with the fact "this ancestor
is the first child of its own parent whose kind is not
newline/indent/dedent/colon"; `seenNT` records whether an earlier sibling of
the current node had a non-trivial kind.  Together they resolve the
docstring context test of lines 178-187 (`node.parent`,
`parent.parent`, `block.parent` and the identity test
`parent == next(child for child in block.children if ...)`) positionally. -/
def travPython (anc : List (String × Bool)) (seenNT : Bool) :
    TSTree → RawFeatures → RawFeatures
  | .nil, acc => acc
  | .node ty _fl tx cs nx, acc =>
      let isFNT := !seenNT && !pyTrivialTy ty
      let acc :=
        if ty = "string" then
          let acc := { acc with strings := acc.strings ++ [tx] }
          match anc with
          | (pty, pFNT) :: (gty, _) :: (dty, _) :: _ =>
              if pty = "expression_statement" && (gty = "block" || gty = "suite") &&
                  (dty = "function_definition" || dty = "class_definition") && pFNT then
                { acc with docstrings :=
                    acc.docstrings ++ [pyStripWs (stripPyQuoteDelims (pyStripWs tx))] }
              else acc
          | _ => acc
        else if ty = "function_definition" then
          match TSTree.childByField "name" cs with
          | some c => { acc with function_names := acc.function_names ++ [c.headText] }
          | none => acc
        else if ty = "class_definition" then
          match TSTree.childByField "name" cs with
          | some c => { acc with class_names := acc.class_names ++ [c.headText] }
          | none => acc
        else if ty = "assignment" then
          match TSTree.childByField "left" cs with
          | some c =>
              if c.headTy = "identifier" then
                { acc with variable_names := acc.variable_names ++ [c.headText] }
              else acc
          | none => acc
        else if ty = "import_statement" || ty = "import_from_statement" then
          { acc with imports := acc.imports ++ [tx] }
        else if ty = "comment" then
          { acc with comments := acc.comments ++ [tx] }
        else acc
      let acc := travPython ((ty, isFNT) :: anc) false cs acc
      travPython anc (seenNT || !pyTrivialTy ty) nx acc

/-- `TreeSitterExtractor._extract_js_ts_features`,
`code_extractor.py:229-298`; `parent` carries `node.parent` down the
traversal for the template-string and arrow-function cases. -/
def travJsTs (parent : Option TSTree) : TSTree → RawFeatures → RawFeatures
  | .nil, acc => acc
  | .node ty fl tx cs nx, acc =>
      let acc :=
        if ty = "string" || ty = "template_string" then
          let acc := { acc with strings := acc.strings ++ [tx] }
          let st := pyStripWs tx
          match parent with
          | some p =>
              if p.headTy = "comment" && strStartsWith st "/**" && strEndsWith st "*/" then
                if strStartsWith st "/**" && strEndsWith st "*/" then
                  { acc with docstrings :=
                      acc.docstrings ++ [pyStripWs ((st.drop 3).dropRight 2)] }
                else acc
              else acc
          | none => acc
        else if ty = "function_declaration" || ty = "function_expression" then
          match TSTree.childByField "name" cs with
          | some c => { acc with function_names := acc.function_names ++ [c.headText] }
          | none => acc
        else if ty = "arrow_function" then
          match parent with
          | some (.node pty _ _ pcs _) =>
              if pty = "variable_declarator" then
                match TSTree.childByField "name" pcs with
                | some c =>
                    { acc with function_names := acc.function_names ++ [c.headText] }
                | none => acc
              else acc
          | _ => acc
        else if ty = "class_declaration" then
          match TSTree.childByField "name" cs with
          | some c => { acc with class_names := acc.class_names ++ [c.headText] }
          | none => acc
        else if ty = "method_definition" then
          match TSTree.childByField "name" cs with
          | some c => { acc with method_names := acc.method_names ++ [c.headText] }
          | none => acc
        else if ty = "variable_declarator" then
          match TSTree.childByField "name" cs with
          | some c => { acc with variable_names := acc.variable_names ++ [c.headText] }
          | none => acc
        else if ty = "import_statement" || ty = "import_declaration" then
          { acc with imports := acc.imports ++ [tx] }
        else if ty = "comment" then
          let acc := { acc with comments := acc.comments ++ [tx] }
          let st := pyStripWs tx
          if strStartsWith st "/**" && strEndsWith st "*/" then
            let content := pyStripWs ((st.drop 3).dropRight 2)
            if 10 < content.length then
              { acc with docstrings := acc.docstrings ++ [content] }
            else acc
          else acc
        else acc
      let acc := travJsTs (some (.node ty fl tx cs nx)) cs acc
      travJsTs parent nx acc

/-- `TreeSitterExtractor._extract_java_features`,
`code_extractor.py:300-347`. -/
def travJava : TSTree → RawFeatures → RawFeatures
  | .nil, acc => acc
  | .node ty _ tx cs nx, acc =>
      let acc :=
        if ty = "string_literal" then
          { acc with strings := acc.strings ++ [tx] }
        else if ty = "method_declaration" then
          match TSTree.childByField "name" cs with
          | some c => { acc with method_names := acc.method_names ++ [c.headText] }
          | none => acc
        else if ty = "class_declaration" then
          match TSTree.childByField "name" cs with
          | some c => { acc with class_names := acc.class_names ++ [c.headText] }
          | none => acc
        else if ty = "variable_declarator" then
          match TSTree.childByField "name" cs with
          | some c => { acc with variable_names := acc.variable_names ++ [c.headText] }
          | none => acc
        else if ty = "import_declaration" then
          { acc with imports := acc.imports ++ [tx] }
        else if ty = "line_comment" || ty = "block_comment" then
          let acc := { acc with comments := acc.comments ++ [tx] }
          if ty = "block_comment" && strStartsWith (pyStripWs tx) "/**" then
            let c0 := pyStripWs tx
            if strStartsWith c0 "/**" && strEndsWith c0 "*/" then
              let content := pyStripWs ((c0.drop 3).dropRight 2)
              if 10 < content.length then
                { acc with docstrings := acc.docstrings ++ [content] }
              else acc
            else acc
          else acc
        else acc
      travJava nx (travJava cs acc)

/-- The prefix/suffix stripping loop shared by the C/C++ and Rust doc-comment
recognizers (`code_extractor.py:397-403` and 529-535): the first pair whose
prefix matches is applied — both ends stripped when the suffix is nonempty
and present, otherwise the prefix alone — and the loop breaks. -/
def stripDocPairs (pairs : List (String × String)) (s : String) : String :=
  match pairs with
  | [] => s
  | (pre, suf) :: rest =>
      if strStartsWith s pre then
        if suf ≠ "" && strEndsWith s suf then (s.drop pre.length).dropRight suf.length
        else s.drop pre.length
      else stripDocPairs rest s

/-- The prefix/suffix table of the C/C++ doc-comment recognizer,
`code_extractor.py:397`.  The second prefix reproduces the source literally:
it is `/*` followed by U+00EF U+00BC (a mojibake artifact in the source). -/
def cDocPairs : List (String × String) :=
  [("/**", "*/"), ("/*ï¼", "*/"), ("///", ""), ("//!", "")]

/-- Inner loop of the C/C++ `declaration` case, `code_extractor.py:375-382`:
over the declaration's children, each `init_declarator` whose `declarator`
field is an identifier contributes a variable name. -/
def collectCCppDeclVars : TSTree → List String
  | .nil => []
  | .node cty _ _ ccs cnx =>
      (if cty = "init_declarator" then
        match TSTree.childByField "declarator" ccs with
        | some d => if d.headTy = "identifier" then [d.headText] else []
        | none => []
      else []) ++ collectCCppDeclVars cnx

/-- `TreeSitterExtractor._extract_c_cpp_features`,
`code_extractor.py:349-412`. -/
def travCCpp : TSTree → RawFeatures → RawFeatures
  | .nil, acc => acc
  | .node ty _ tx cs nx, acc =>
      let acc :=
        if ty = "string_literal" then
          { acc with strings := acc.strings ++ [tx] }
        else if ty = "function_definition" then
          match TSTree.childByField "declarator" cs with
          | some d =>
              if d.headTy = "function_declarator" then
                match d with
                | .node _ _ _ dcs _ =>
                    match TSTree.childByField "declarator" dcs with
                    | some n =>
                        { acc with function_names := acc.function_names ++ [n.headText] }
                    | none => acc
                | .nil => acc
              else acc
          | none => acc
        else if ty = "class_specifier" || ty = "struct_specifier" then
          match TSTree.childByField "name" cs with
          | some c => { acc with class_names := acc.class_names ++ [c.headText] }
          | none => acc
        else if ty = "declaration" then
          { acc with variable_names := acc.variable_names ++ collectCCppDeclVars cs }
        else if ty = "preproc_include" || ty = "preproc_import" then
          { acc with imports := acc.imports ++ [tx] }
        else if ty = "comment" then
          let acc := { acc with comments := acc.comments ++ [tx] }
          let st := pyStripWs tx
          if strStartsWith st "/**" || strStartsWith st "///" || strStartsWith st "/*!" then
            let content := pyStripWs (stripDocPairs cDocPairs st)
            if 10 < content.length then
              { acc with docstrings := acc.docstrings ++ [content] }
            else acc
          else acc
        else acc
      travCCpp nx (travCCpp cs acc)

/-- Inner loop of the Go `type_declaration` case,
`code_extractor.py:438-445`. -/
def collectGoTypeNames : TSTree → List String
  | .nil => []
  | .node cty _ _ ccs cnx =>
      (if cty = "type_spec" then
        match TSTree.childByField "name" ccs with
        | some n => [n.headText]
        | none => []
      else []) ++ collectGoTypeNames cnx

/-- First `identifier` grandchild of a `var_spec`/`const_spec` (the inner
loop of `code_extractor.py:450-455` breaks after the first hit). -/
def firstIdentifierText : TSTree → List String
  | .nil => []
  | .node cty _ ctx _ cnx =>
      if cty = "identifier" then [ctx] else firstIdentifierText cnx

/-- Every `identifier` node of an `expression_list`,
`code_extractor.py:456-461` (no break). -/
def allIdentifierTexts : TSTree → List String
  | .nil => []
  | .node cty _ ctx _ cnx =>
      (if cty = "identifier" then [ctx] else []) ++ allIdentifierTexts cnx

/-- Inner loop of the Go variable-declaration case,
`code_extractor.py:447-461`. -/
def collectGoVarNames : TSTree → List String
  | .nil => []
  | .node cty _ _ ccs cnx =>
      (if cty = "var_spec" || cty = "const_spec" then firstIdentifierText ccs
       else if cty = "expression_list" then allIdentifierTexts ccs
       else []) ++ collectGoVarNames cnx

/-- `TreeSitterExtractor._extract_go_features`,
`code_extractor.py:414-483`; the comment case reads `node.next_sibling`,
which in the sibling-chain representation is `nx`. -/
def travGo : TSTree → RawFeatures → RawFeatures
  | .nil, acc => acc
  | .node ty _ tx cs nx, acc =>
      let acc :=
        if ty = "interpreted_string_literal" || ty = "raw_string_literal" then
          { acc with strings := acc.strings ++ [tx] }
        else if ty = "function_declaration" then
          match TSTree.childByField "name" cs with
          | some c => { acc with function_names := acc.function_names ++ [c.headText] }
          | none => acc
        else if ty = "method_declaration" then
          match TSTree.childByField "name" cs with
          | some c => { acc with method_names := acc.method_names ++ [c.headText] }
          | none => acc
        else if ty = "type_declaration" then
          { acc with class_names := acc.class_names ++ collectGoTypeNames cs }
        else if ty = "var_declaration" || ty = "short_var_declaration" ||
            ty = "const_declaration" then
          { acc with variable_names := acc.variable_names ++ collectGoVarNames cs }
        else if ty = "import_declaration" then
          { acc with imports := acc.imports ++ [tx] }
        else if ty = "comment" then
          let acc := { acc with comments := acc.comments ++ [tx] }
          if strStartsWith (pyStripWs tx) "//" then
            if nx.headTy = "function_declaration" || nx.headTy = "type_declaration" ||
                nx.headTy = "method_declaration" then
              let c0 := pyStripWs tx
              if strStartsWith c0 "//" then
                let content := pyStripWs (c0.drop 2)
                if 10 < content.length then
                  { acc with docstrings := acc.docstrings ++ [content] }
                else acc
              else acc
            else acc
          else acc
        else acc
      travGo nx (travGo cs acc)

/-- The prefix/suffix table of the Rust doc-comment recognizer,
`code_extractor.py:529`. -/
def rustDocPairs : List (String × String) :=
  [("///", ""), ("//!", ""), ("/**", "*/"), ("/*!", "*/")]

/-- `TreeSitterExtractor._extract_rust_features`,
`code_extractor.py:485-544`. -/
def travRust : TSTree → RawFeatures → RawFeatures
  | .nil, acc => acc
  | .node ty _ tx cs nx, acc =>
      let acc :=
        if ty = "string_literal" then
          { acc with strings := acc.strings ++ [tx] }
        else if ty = "function_item" then
          match TSTree.childByField "name" cs with
          | some c => { acc with function_names := acc.function_names ++ [c.headText] }
          | none => acc
        else if ty = "struct_item" || ty = "enum_item" || ty = "trait_item" ||
            ty = "impl_item" then
          match TSTree.childByField "name" cs with
          | some c => { acc with class_names := acc.class_names ++ [c.headText] }
          | none => acc
        else if ty = "let_declaration" then
          match TSTree.childByField "pattern" cs with
          | some p =>
              if p.headTy = "identifier" then
                { acc with variable_names := acc.variable_names ++ [p.headText] }
              else acc
          | none => acc
        else if ty = "use_declaration" || ty = "extern_crate_declaration" then
          { acc with imports := acc.imports ++ [tx] }
        else if ty = "line_comment" || ty = "block_comment" then
          let acc := { acc with comments := acc.comments ++ [tx] }
          let st := pyStripWs tx
          if strStartsWith st "///" || strStartsWith st "//!" || strStartsWith st "/**" ||
              strStartsWith st "/*!" then
            let content := pyStripWs (stripDocPairs rustDocPairs st)
            if 10 < content.length then
              { acc with docstrings := acc.docstrings ++ [content] }
            else acc
          else acc
        else acc
      travRust nx (travRust cs acc)

/-- `TreeSitterExtractor._extract_ruby_features`,
`code_extractor.py:546-606`; the comment case reads `node.next_sibling`. -/
def travRuby : TSTree → RawFeatures → RawFeatures
  | .nil, acc => acc
  | .node ty _ tx cs nx, acc =>
      let acc :=
        if ty = "string" then
          { acc with strings := acc.strings ++ [tx] }
        else if ty = "method" then
          match TSTree.childByField "name" cs with
          | some c => { acc with method_names := acc.method_names ++ [c.headText] }
          | none => acc
        else if ty = "class" then
          match TSTree.childByField "name" cs with
          | some c => { acc with class_names := acc.class_names ++ [c.headText] }
          | none => acc
        else if ty = "module" then
          match TSTree.childByField "name" cs with
          | some c => { acc with class_names := acc.class_names ++ [c.headText] }
          | none => acc
        else if ty = "assignment" then
          match TSTree.childByField "left" cs with
          | some c =>
              if c.headTy = "identifier" then
                { acc with variable_names := acc.variable_names ++ [c.headText] }
              else acc
          | none => acc
        else if ty = "require" || ty = "load" || ty = "require_relative" then
          { acc with imports := acc.imports ++ [tx] }
        else if ty = "comment" then
          let acc := { acc with comments := acc.comments ++ [tx] }
          if strStartsWith (pyStripWs tx) "#" then
            if nx.headTy = "method" || nx.headTy = "class" || nx.headTy = "module" then
              let c0 := pyStripWs tx
              if strStartsWith c0 "#" then
                let content := pyStripWs (c0.drop 1)
                if 10 < content.length then
                  { acc with docstrings := acc.docstrings ++ [content] }
                else acc
              else acc
            else acc
          else acc
        else acc
      travRuby nx (travRuby cs acc)

/-- The PHPDoc tag markers of `code_extractor.py:664`. -/
def phpDocMarkers : List String := ["@param", "@return", "@throws", "@var", "@author"]

/-- `TreeSitterExtractor._extract_php_features`,
`code_extractor.py:608-670`. -/
def travPhp : TSTree → RawFeatures → RawFeatures
  | .nil, acc => acc
  | .node ty _ tx cs nx, acc =>
      let acc :=
        if ty = "string" then
          { acc with strings := acc.strings ++ [tx] }
        else if ty = "function_definition" then
          match TSTree.childByField "name" cs with
          | some c => { acc with function_names := acc.function_names ++ [c.headText] }
          | none => acc
        else if ty = "method_declaration" then
          match TSTree.childByField "name" cs with
          | some c => { acc with method_names := acc.method_names ++ [c.headText] }
          | none => acc
        else if ty = "class_declaration" || ty = "interface_declaration" ||
            ty = "trait_declaration" then
          match TSTree.childByField "name" cs with
          | some c => { acc with class_names := acc.class_names ++ [c.headText] }
          | none => acc
        else if ty = "assignment_expression" then
          match TSTree.childByField "left" cs with
          | some c =>
              if c.headTy = "variable_name" then
                { acc with variable_names := acc.variable_names ++ [c.headText] }
              else acc
          | none => acc
        else if ty = "include_expression" || ty = "require_expression" ||
            ty = "include_once_expression" || ty = "require_once_expression" then
          { acc with imports := acc.imports ++ [tx] }
        else if ty = "comment" then
          let acc := { acc with comments := acc.comments ++ [tx] }
          let st := pyStripWs tx
          if strStartsWith st "/**" || strStartsWith st "/*" then
            if strStartsWith st "/**" && strEndsWith st "*/" then
              let content := pyStripWs ((st.drop 3).dropRight 2)
              if 10 < content.length then
                { acc with docstrings := acc.docstrings ++ [content] }
              else acc
            else if strStartsWith st "/*" && strEndsWith st "*/" then
              let content := pyStripWs ((st.drop 2).dropRight 2)
              if phpDocMarkers.any (fun m => pyContains content m) then
                { acc with docstrings := acc.docstrings ++ [content] }
              else acc
            else acc
          else acc
        else acc
      travPhp nx (travPhp cs acc)

/-- `TreeSitterExtractor._extract_generic_features`,
`code_extractor.py:672-697`: any node kind containing `"string"` is a string
literal, any containing `"comment"` a comment, and identifiers longer than 3
characters are candidate variable names. -/
def travGeneric : TSTree → RawFeatures → RawFeatures
  | .nil, acc => acc
  | .node ty _ tx cs nx, acc =>
      let acc :=
        if pyContains ty "string" then
          { acc with strings := acc.strings ++ [tx] }
        else if pyContains ty "comment" then
          { acc with comments := acc.comments ++ [tx] }
        else if ty = "identifier" && 1 < tx.length then
          if 3 < tx.length then
            { acc with variable_names := acc.variable_names ++ [tx] }
          else acc
        else acc
      travGeneric nx (travGeneric cs acc)

/-- Python `\w` at ASCII: letters, digits, underscore. -/
def isWordChar (c : Char) : Bool := c.isAlphanum || c = '_'

/-- Python `\s` at ASCII. -/
def isPyWsChar (c : Char) : Bool := pyWs.contains c

/-- Driver reproducing Python `re.findall`: attempt a match at each
position, emit the capture and resume after the match on success, advance
one character on failure.  `fuel` starts at the input length; every pattern
embedded below consumes at least one character per match. -/
def reScan {α : Type} (attempt : List Char → Option (α × Nat)) :
    Nat → List Char → List α
  | 0, _ => []
  | _, [] => []
  | fuel + 1, l =>
      match attempt l with
      | some (a, consumed) => a :: reScan attempt fuel (l.drop (max consumed 1))
      | none => reScan attempt fuel (l.drop 1)

/-- Tail scanner for the quoted-string patterns of
`code_extractor.py:715-719` (`"([^"\\]|\\.)*"` and the single-quote and
backtick variants): find the first unescaped closing quote, tracking the
last repetition of the capture group.  `re.findall` returns group 1 — the
last single-character-or-escape-pair unit, or `""` for an empty literal. -/
def quoteClose (q : Char) (lastUnit : Option (List Char)) (cnt : Nat) :
    List Char → Option (String × Nat)
  | [] => none
  | c :: cs =>
      if c = q then some (String.mk (lastUnit.getD []), cnt + 1)
      else if c = '\\' then
        match cs with
        | [] => none
        | d :: ds => quoteClose q (some [c, d]) (cnt + 2) ds
      else quoteClose q (some [c]) (cnt + 1) cs

/-- Match attempt for one quoted-string pattern at the current position. -/
def quoteAttempt (q : Char) : List Char → Option (String × Nat)
  | [] => none
  | c :: cs =>
      if c = q then (quoteClose q none 0 cs).map (fun r => (r.1, r.2 + 1))
      else none

/-- Match attempt for the line-comment patterns `#.*` and `//.*`
(`code_extractor.py:725,729`): the marker followed by everything up to the
next newline; the full match (marker included) is the findall result. -/
def lineAttempt (marker : List Char) (l : List Char) : Option (String × Nat) :=
  if marker.isPrefixOf l then
    let content := (l.drop marker.length).takeWhile (fun c => c ≠ '\n')
    some (String.mk (marker ++ content), marker.length + content.length)
  else none

/-- Tail scanner for `/\*(.*?)\*/` with DOTALL (`code_extractor.py:730`):
everything up to the first `*/`; the capture is the content between the
delimiters. -/
def starSlashClose (acc : List Char) (cnt : Nat) :
    List Char → Option (String × Nat)
  | [] => none
  | '*' :: '/' :: _ => some (String.mk acc.reverse, cnt + 2)
  | c :: cs => starSlashClose (c :: acc) (cnt + 1) cs

/-- Match attempt for the block-comment pattern at the current position. -/
def blockAttempt : List Char → Option (String × Nat)
  | '/' :: '*' :: rest => (starSlashClose [] 0 rest).map (fun r => (r.1, r.2 + 2))
  | _ => none

/-- Tail scanner for the triple-quoted patterns `"""(.*?)"""` and
`'''(.*?)'''` with DOTALL (`code_extractor.py:726-727`): content up to the
first run of three closing quotes (non-greedy). -/
def tripleClose (q : Char) (acc : List Char) (cnt : Nat) :
    List Char → Option (String × Nat)
  | c1 :: c2 :: c3 :: rest =>
      if c1 = q && c2 = q && c3 = q then some (String.mk acc.reverse, cnt + 3)
      else tripleClose q (c1 :: acc) (cnt + 1) (c2 :: c3 :: rest)
  | _ => none

/-- Match attempt for one triple-quoted pattern at the current position. -/
def tripleAttempt (q : Char) : List Char → Option (String × Nat)
  | c1 :: c2 :: c3 :: rest =>
      if c1 = q && c2 = q && c3 = q then
        (tripleClose q [] 0 rest).map (fun r => (r.1, r.2 + 3))
      else none
  | _ => none

/-- Match attempt for the keyword patterns `def\s+(\w+)`, `class\s+(\w+)`
and `function\s+(\w+)` (`code_extractor.py:734-738`): the keyword literal
(no word boundary in the source pattern), at least one whitespace
character, then the captured identifier. -/
def kwNameAttempt (kw : List Char) (l : List Char) : Option (String × Nat) :=
  if kw.isPrefixOf l then
    let r1 := l.drop kw.length
    let ws := r1.takeWhile isPyWsChar
    if ws.isEmpty then none
    else
      let r2 := r1.drop ws.length
      let name := r2.takeWhile isWordChar
      if name.isEmpty then none
      else some (String.mk name, kw.length + ws.length + name.length)
  else none

/-- Match attempt for the variable pattern `(\w+)\s*=`
(`code_extractor.py:745`). -/
def assignAttempt (l : List Char) : Option (String × Nat) :=
  let w := l.takeWhile isWordChar
  if w.isEmpty then none
  else
    let r1 := l.drop w.length
    let ws := r1.takeWhile isPyWsChar
    match r1.drop ws.length with
    | '=' :: _ => some (String.mk w, w.length + ws.length + 1)
    | _ => none

/-- `\w+\s+(\w+)\s*\(` — tail of the Java method pattern
(`code_extractor.py:740`) after the optional modifier groups. -/
def javaRestAttempt (l : List Char) : Option (String × Nat) :=
  let t := l.takeWhile isWordChar
  if t.isEmpty then none
  else
    let r1 := l.drop t.length
    let ws1 := r1.takeWhile isPyWsChar
    if ws1.isEmpty then none
    else
      let r2 := r1.drop ws1.length
      let name := r2.takeWhile isWordChar
      if name.isEmpty then none
      else
        let r3 := r2.drop name.length
        let ws2 := r3.takeWhile isPyWsChar
        match r3.drop ws2.length with
        | '(' :: _ =>
            some (String.mk name, t.length + ws1.length + name.length + ws2.length + 1)
        | _ => none

/-- Continuation of the Java method pattern once group 1 is resolved to
`g1` with `consumed1` characters: `\s*(static)?\s*` then the tail, trying
the `static` group present first (regex optional groups prefer matching,
backtracking to absent on failure). -/
def javaAfterKw (g1 : String) (consumed1 : Nat) (l : List Char) :
    Option ((String × String × String) × Nat) :=
  let ws1 := l.takeWhile isPyWsChar
  let r1 := l.drop ws1.length
  let withStatic :=
    if ("static".data).isPrefixOf r1 then
      let r2 := r1.drop 6
      let ws2 := r2.takeWhile isPyWsChar
      (javaRestAttempt (r2.drop ws2.length)).map
        (fun r => ((g1, "static", r.1), consumed1 + ws1.length + 6 + ws2.length + r.2))
    else none
  match withStatic with
  | some res => some res
  | none =>
      (javaRestAttempt r1).map
        (fun r => ((g1, "", r.1), consumed1 + ws1.length + r.2))

/-- The access-modifier alternatives of the Java method pattern, tried in
the source pattern's order and falling through to the group-absent case. -/
def javaTryKw : List String → List Char → Option ((String × String × String) × Nat)
  | [], l => javaAfterKw "" 0 l
  | kw :: rest, l =>
      if kw.data.isPrefixOf l then
        match javaAfterKw kw kw.length (l.drop kw.length) with
        | some r => some r
        | none => javaTryKw rest l
      else javaTryKw rest l

/-- Match attempt for the full Java method pattern
`(public|private|protected)?\s*(static)?\s*\w+\s+(\w+)\s*\(`
(`code_extractor.py:740`); the findall result is the triple of group
captures. -/
def javaMethodAttempt (l : List Char) :
    Option ((String × String × String) × Nat) :=
  javaTryKw ["public", "private", "protected"] l

/-- Because the Java method pattern has three capture groups, `re.findall`
yields 3-tuples, which `code_extractor.py:740` appends unchanged into the
(nominally `List[str]`) `method_names` field; each tuple is modelled here by
its Python `repr` text. -/
def renderPyTriple (t : String × String × String) : String :=
  "('" ++ t.1 ++ "', '" ++ t.2.1 ++ "', '" ++ t.2.2 ++ "')"

/-- The C-like language family of `code_extractor.py:728`. -/
def cFamilyLangs : List String :=
  ["javascript", "typescript", "tsx", "java", "c", "cpp", "go", "rust", "php"]

/-- `TreeSitterExtractor._fallback_extraction`, `code_extractor.py:699-747`:
regex-based extraction used when no parser is registered for the language.
Note the source returns these raw findall results directly — the
normalization of lines 157-164 is *not* applied on this path. -/
def fallback_extraction (code : String) (language : String)
    (file_path : Option String) : CodeFeatures :=
  let cs := code.data
  let n := cs.length
  let strings :=
    reScan (quoteAttempt '"') n cs ++ reScan (quoteAttempt '\'') n cs ++
      reScan (quoteAttempt (Char.ofNat 96)) n cs
  let comments :=
    if language = "python" then reScan (lineAttempt ['#']) n cs
    else if cFamilyLangs.contains language then
      reScan (lineAttempt ['/', '/']) n cs ++ reScan blockAttempt n cs
    else []
  let docstrings :=
    if language = "python" then
      reScan (tripleAttempt '"') n cs ++ reScan (tripleAttempt '\'') n cs
    else []
  let function_names :=
    if language = "python" then reScan (kwNameAttempt ("def".data)) n cs
    else if language = "javascript" || language = "typescript" ||
        language = "tsx" then
      reScan (kwNameAttempt ("function".data)) n cs
    else []
  let class_names :=
    if language = "python" then reScan (kwNameAttempt ("class".data)) n cs
    else if language = "javascript" || language = "typescript" ||
        language = "tsx" then
      reScan (kwNameAttempt ("class".data)) n cs
    else if language = "java" then reScan (kwNameAttempt ("class".data)) n cs
    else []
  let method_names :=
    if language = "java" then (reScan javaMethodAttempt n cs).map renderPyTriple
    else []
  let variable_names :=
    if language = "python" then reScan assignAttempt n cs
    else []
  { strings := strings, function_names := function_names,
    variable_names := variable_names, comments := comments,
    docstrings := docstrings, class_names := class_names,
    method_names := method_names, imports := [],
    language := language, file_path := file_path }

/-- The languages whose parsers `_init_languages` (`code_extractor.py:30-92`)
registers when every grammar module is installed (the supported deployment;
a missing module only removes its language from this list, it is never
fatal). -/
def registeredLanguages : List String :=
  ["python", "javascript", "java", "cpp", "c", "go", "rust", "ruby", "php",
   "typescript", "tsx"]

/-- Root node kind each tree-sitter grammar produces for a source file
(`module` / `program` / `translation_unit` / `source_file`); used to state
what the external grammars return on the concrete inputs exercised below. -/
def rootNodeType (language : String) : String :=
  if language = "python" then "module"
  else if language = "c" || language = "cpp" then "translation_unit"
  else if language = "go" || language = "rust" then "source_file"
  else "program"

/-- `TreeSitterExtractor.extract_features`, `code_extractor.py:117-166`.
The external grammar enters as the `parse` parameter (language ↦ source ↦
concrete syntax tree; tree-sitter's `Parser.parse` returns a best-effort
tree for every input, so it is total).  A language with no registered
parser is routed to `_fallback_extraction` (lines 118-120); otherwise the
language's rule set runs over the parsed tree (lines 138-155) and the
result is normalized (lines 157-164). -/
def extract_features (parse : String → String → TSTree) (code : String)
    (language : String) (file_path : Option String) : CodeFeatures :=
  if language ∉ registeredLanguages then
    fallback_extraction code language file_path
  else
    let tree := parse language code
    let raw :=
      if language = "python" then travPython [] false tree emptyRaw
      else if language = "javascript" || language = "typescript" ||
          language = "tsx" then travJsTs none tree emptyRaw
      else if language = "java" then travJava tree emptyRaw
      else if language = "c" || language = "cpp" then travCCpp tree emptyRaw
      else if language = "go" then travGo tree emptyRaw
      else if language = "rust" then travRust tree emptyRaw
      else if language = "ruby" then travRuby tree emptyRaw
      else if language = "php" then travPhp tree emptyRaw
      else travGeneric tree emptyRaw
    normalizeFeatures
      { strings := raw.strings, function_names := raw.function_names,
        variable_names := raw.variable_names, comments := raw.comments,
        docstrings := raw.docstrings, class_names := raw.class_names,
        method_names := raw.method_names, imports := raw.imports,
        language := language, file_path := file_path }

/-- The extension table of `detect_language`, `code_extractor.py:95-112`. -/
def extToLang : List (String × String) :=
  [(".py", "python"), (".js", "javascript"), (".jsx", "javascript"),
   (".ts", "typescript"), (".tsx", "tsx"), (".java", "java"),
   (".cpp", "cpp"), (".cxx", "cpp"), (".cc", "cpp"), (".c", "c"),
   (".h", "c"), (".hpp", "cpp"), (".go", "go"), (".rs", "rust"),
   (".rb", "ruby"), (".php", "php")]

/-- `pathlib.PurePath(p).name`: the final path component. -/
def pathFinalComponent (p : String) : List Char :=
  (p.data.reverse.takeWhile (fun c => c ≠ '/')).reverse

/-- `pathlib.PurePath(p).suffix`: the extension of the final component —
from the last dot, provided that dot is neither the first nor the last
character of the component; otherwise empty. -/
def extOfPath (p : String) : String :=
  let name := pathFinalComponent p
  let afterDot := name.reverse.takeWhile (fun c => c ≠ '.')
  if afterDot.length = name.length then ""
  else
    let i := name.length - afterDot.length - 1
    if 0 < i && i < name.length - 1 then String.mk ('.' :: afterDot.reverse)
    else ""

/-- `TreeSitterExtractor.detect_language`, `code_extractor.py:94-115`: a
pure function of the lower-cased extension of the file path; `none` models
Python's `None` ("unsupported") for unknown or absent extensions. -/
def detect_language (file_path : String) : Option String :=
  let sfx := String.mk ((extOfPath file_path).data.map Char.toLower)
  extToLang.lookup sfx

/-! ### The similarity projector of `github.py`

`get_code_similarity_features` receives a dynamically-typed dictionary, so
its input is modelled by a Python-value type `PyVal`; every primitive
operation the body performs (`.get`, iteration, `len`, `[0]`, string
methods, `in`, `max`, `/`) is `Except`-valued, mirroring the exceptions it
can raise on unexpected value shapes.  Python floats appear only as results
of `/` on values the code has floored to a nonzero denominator; they are
modelled exactly over `ℚ` (no claim concerns float rounding). -/

inductive PyVal where
  | pynone : PyVal
  | pybool (b : Bool) : PyVal
  | pyint (n : Int) : PyVal
  | pyfloat (q : ℚ) : PyVal
  | pystr (s : String) : PyVal
  | pylist (xs : List PyVal) : PyVal
  | pydict (kvs : List (String × PyVal)) : PyVal

/-- `v.get(key, default)`: defined for dictionaries, an `AttributeError` on
anything else. -/
def pyGet (v : PyVal) (key : String) (dflt : PyVal) : Except String PyVal :=
  match v with
  | .pydict kvs => pure ((kvs.lookup key).getD dflt)
  | _ => .error "AttributeError"

/-- `for x in v`: lists yield their elements, strings their characters (as
one-character strings), dictionaries their keys; other values raise. -/
def pyIterate : PyVal → Except String (List PyVal)
  | .pylist xs => pure xs
  | .pystr s => pure (s.data.map fun c => .pystr (String.mk [c]))
  | .pydict kvs => pure (kvs.map fun kv => PyVal.pystr kv.1)
  | _ => .error "TypeError"

/-- `len(v)`. -/
def pyLen : PyVal → Except String Nat
  | .pystr s => pure s.length
  | .pylist xs => pure xs.length
  | .pydict kvs => pure kvs.length
  | _ => .error "TypeError"

/-- `needle in v` where the needle is a string literal (the only shape the
embedded code tests): substring search in strings, `==`-membership in lists
(a string compares equal only to an equal string), key membership in
dictionaries. -/
def pyInStr (needle : String) : PyVal → Except String Bool
  | .pystr s => pure (isInfixChars needle.data s.data)
  | .pylist xs =>
      pure (xs.any fun x => match x with
        | .pystr s => s = needle
        | _ => false)
  | .pydict kvs => pure (kvs.any fun kv => kv.1 = needle)
  | _ => .error "TypeError"

/-- `v[0]`. -/
def pyIndex0 : PyVal → Except String PyVal
  | .pystr s =>
      match s.data with
      | [] => .error "IndexError"
      | c :: _ => pure (.pystr (String.mk [c]))
  | .pylist xs =>
      match xs with
      | [] => .error "IndexError"
      | x :: _ => pure x
  | .pydict _ => .error "KeyError"
  | _ => .error "TypeError"

/-- Python `str.isupper()`: at least one cased character and no lowercase
character (ASCII model). -/
def pyIsUpper (s : String) : Bool :=
  s.data.any (fun c => c.isUpper || c.isLower) && s.data.all (fun c => !c.isLower)

/-- Python `str.islower()`: at least one cased character and no uppercase
character (ASCII model). -/
def pyIsLower (s : String) : Bool :=
  s.data.any (fun c => c.isUpper || c.isLower) && s.data.all (fun c => !c.isUpper)

/-- `.isupper()` as a method on a dynamic value. -/
def pyIsUpperM : PyVal → Except String Bool
  | .pystr s => pure (pyIsUpper s)
  | _ => .error "AttributeError"

/-- `.islower()` as a method on a dynamic value. -/
def pyIsLowerM : PyVal → Except String Bool
  | .pystr s => pure (pyIsLower s)
  | _ => .error "AttributeError"

/-- `.startswith(pre)` as a method on a dynamic value. -/
def pyStartsWithM (pre : String) : PyVal → Except String Bool
  | .pystr s => pure (strStartsWith s pre)
  | _ => .error "AttributeError"

/-- `.isdigit()` as a method on a dynamic value (nonempty and all digits,
ASCII model). -/
def pyIsDigitM : PyVal → Except String Bool
  | .pystr s => pure (!s.isEmpty && s.data.all Char.isDigit)
  | _ => .error "AttributeError"

/-- `len(v.split())`: the number of maximal nonempty whitespace-separated
tokens. -/
def pySplitCountM : PyVal → Except String Nat
  | .pystr s => pure ((s.data.splitOnP isPyWsChar).filter (fun w => !w.isEmpty)).length
  | _ => .error "AttributeError"

/-- `v.strip('#/* ').lower()` of `github.py:262`. -/
def pyStripLowerM : PyVal → Except String String
  | .pystr s => pure (String.mk ((pyStrip ['#', '/', '*', ' '] s).data.map Char.toLower))
  | _ => .error "AttributeError"

/-- Numeric coercion used by `max` and `/` (Python `bool` is an `int`). -/
def pyToRat : PyVal → Except String ℚ
  | .pyint n => pure (n : ℚ)
  | .pyfloat q => pure q
  | .pybool b => pure (if b then 1 else 0)
  | _ => .error "TypeError"

/-- The numeric value of `max(v, k)`. -/
def pyMaxRat (v : PyVal) (k : ℚ) : Except String ℚ := do
  let r ← pyToRat v
  pure (max r k)

/-- True division `a / b` (the denominators in the embedded code have been
floored to at least 1). -/
def pyDivToFloat (a : PyVal) (b : ℚ) : Except String PyVal := do
  let ra ← pyToRat a
  if b = 0 then .error "ZeroDivisionError" else pure (.pyfloat (ra / b))

/-- Short-circuiting `any(c.isupper() for c in ...)` over iterated values. -/
def pyAnyUpper : List PyVal → Except String Bool
  | [] => pure false
  | v :: vs => do
      let b ← pyIsUpperM v
      if b then pure true else pyAnyUpper vs

/-- The function-name loop body of `get_code_similarity_features`,
`github.py:227-235`: names longer than 2 characters are bucketed
`snake_case` (contains an underscore), `camelCase` (first character
lowercase and some character uppercase), or `PascalCase` (first character
uppercase); anything else contributes nothing.  There is no `CONSTANT` and
no "other" bucket on this loop. -/
def classifyFuncName (v : PyVal) : Except String (Option String) := do
  let n ← pyLen v
  if 2 < n then do
    let underscore ← pyInStr "_" v
    if underscore then pure (some "snake_case")
    else do
      let c0 ← pyIndex0 v
      let low ← pyIsLowerM c0
      let cond2 ← if low then do pyAnyUpper (← pyIterate v) else pure false
      if cond2 then pure (some "camelCase")
      else do
        let c0' ← pyIndex0 v
        let up ← pyIsUpperM c0'
        if up then pure (some "PascalCase") else pure none
  else pure none

/-- The variable-name loop body, `github.py:238-245`: names longer than 1
character are bucketed `CONSTANT` (`isupper()`), `snake_case` (contains an
underscore) or `camelCase` (first character lowercase); anything else
contributes nothing. -/
def classifyVarName (v : PyVal) : Except String (Option String) := do
  let n ← pyLen v
  if 1 < n then do
    let up ← pyIsUpperM v
    if up then pure (some "CONSTANT")
    else do
      let underscore ← pyInStr "_" v
      if underscore then pure (some "snake_case")
      else do
        let c0 ← pyIndex0 v
        let low ← pyIsLowerM c0
        if low then pure (some "camelCase") else pure none
  else pure none

/-- The string loop body, `github.py:248-258`. -/
def classifyString (v : PyVal) : Except String (Option String) := do
  let n ← pyLen v
  if 5 < n then do
    let b1 ← pyStartsWithM "http" v
    if b1 then pure (some "url_pattern")
    else do
      let b2 ← pyInStr "@" v
      if b2 then pure (some "email_pattern")
      else do
        let b3 ← pyIsDigitM v
        if b3 then pure (some "numeric_string")
        else do
          let k ← pySplitCountM v
          if 3 < k then pure (some "sentence_pattern") else pure none
  else pure none

/-- The comment loop body, `github.py:261-269`. -/
def classifyComment (v : PyVal) : Except String (Option String) := do
  let cl ← pyStripLowerM v
  if 10 < cl.length then
    if ["todo", "fixme", "hack"].any (fun w => pyContains cl w) then
      pure (some "todo_comment")
    else if ["copyright", "license", "author"].any (fun w => pyContains cl w) then
      pure (some "header_comment")
    else pure (some "description_comment")
  else pure none

/-- The import loop body, `github.py:272-279` (the `or`s short-circuit). -/
def classifyImport (v : PyVal) : Except String (Option String) := do
  let b1 ← pyInStr "numpy" v
  if b1 then pure (some "data_science")
  else do
    let b2 ← pyInStr "pandas" v
    if b2 then pure (some "data_science")
    else do
      let b3 ← pyInStr "flask" v
      if b3 then pure (some "web_framework")
      else do
        let b4 ← pyInStr "django" v
        if b4 then pure (some "web_framework")
        else do
          let b5 ← pyInStr "requests" v
          if b5 then pure (some "http_library")
          else do
            let b6 ← pyInStr "urllib" v
            if b6 then pure (some "http_library") else pure none

/-- Run a loop body over iterated values, collecting the emitted buckets in
order. -/
def classifyList (f : PyVal → Except String (Option String)) :
    List PyVal → Except String (List String)
  | [] => pure []
  | v :: vs => do
      let r ← f v
      let rest ← classifyList f vs
      pure (match r with
        | some b => b :: rest
        | none => rest)

/-- The `try`-block of `GitHubService.get_code_similarity_features`,
`github.py:213-306`: the five pattern loops, the structure metrics with
denominators floored at 1, and the final `list(set(...))` deduplication of
every list-valued entry.  The result dictionary's keys are in the source's
insertion order. -/
def gcsfBody (features : PyVal) : Except String PyVal := do
  let aggregated ← pyGet features "aggregated_features" (PyVal.pydict [])
  let funcPatterns ← classifyList classifyFuncName
    (← pyIterate (← pyGet aggregated "function_names" (PyVal.pylist [])))
  let varPatterns ← classifyList classifyVarName
    (← pyIterate (← pyGet aggregated "variable_names" (PyVal.pylist [])))
  let strPatterns ← classifyList classifyString
    (← pyIterate (← pyGet aggregated "strings" (PyVal.pylist [])))
  let cmtPatterns ← classifyList classifyComment
    (← pyIterate (← pyGet aggregated "comments" (PyVal.pylist [])))
  let impPatterns ← classifyList classifyImport
    (← pyIterate (← pyGet aggregated "imports" (PyVal.pylist [])))
  let extraction_stats ← pyGet features "extraction_stats" (PyVal.pydict [])
  let feature_counts ← pyGet extraction_stats "feature_counts" (PyVal.pydict [])
  let uf ← pyGet feature_counts "unique_functions" (PyVal.pyint 0)
  let ucl ← pyGet feature_counts "unique_classes" (PyVal.pyint 1)
  let ratio1 ← pyDivToFloat uf (← pyMaxRat ucl 1)
  let ucm ← pyGet feature_counts "unique_comments" (PyVal.pyint 0)
  let uf1 ← pyGet feature_counts "unique_functions" (PyVal.pyint 1)
  let ratio2 ← pyDivToFloat ucm (← pyMaxRat uf1 1)
  let metrics := PyVal.pydict
    [("function_to_class_ratio", ratio1),
     ("comment_density", ratio2),
     ("import_diversity", PyVal.pyint impPatterns.dedup.length),
     ("naming_consistency", PyVal.pydict
        [("function_patterns", PyVal.pyint funcPatterns.dedup.length),
         ("variable_patterns", PyVal.pyint varPatterns.dedup.length)])]
  pure (PyVal.pydict
    [("function_signature_patterns", PyVal.pylist (funcPatterns.dedup.map PyVal.pystr)),
     ("variable_naming_patterns", PyVal.pylist (varPatterns.dedup.map PyVal.pystr)),
     ("string_patterns", PyVal.pylist (strPatterns.dedup.map PyVal.pystr)),
     ("comment_patterns", PyVal.pylist (cmtPatterns.dedup.map PyVal.pystr)),
     ("import_patterns", PyVal.pylist (impPatterns.dedup.map PyVal.pystr)),
     ("code_structure_metrics", metrics)])

/-- `GitHubService.get_code_similarity_features`, `github.py:208-310`: the
whole body runs inside `try`; any exception is caught and `{}` returned
(lines 308-310). -/
def get_code_similarity_features (features : PyVal) : PyVal :=
  match gcsfBody features with
  | .ok r => r
  | .error _ => PyVal.pydict []

/-- Dictionary projection used to state properties of the projector's
output. -/
def pyDictGet (v : PyVal) (k : String) : Option PyVal :=
  match v with
  | .pydict kvs => kvs.lookup k
  | _ => none

/-! ### Concrete inputs used by the scenario claims -/

/-- The Python scenario source of spec §8:
`def add(a, b):` / indented `"""Adds two numbers."""` / `return a + b`. -/
def pySrcAdd : String :=
  "def add(a, b):\n    \"\"\"Adds two numbers.\"\"\"\n    return a + b\n"

/-- The docstring `string` node of the scenario tree with its
`string_start`/`string_content`/`string_end` children. -/
def pyTreeAddStringNode : TSTree :=
  .node "string" none "\"\"\"Adds two numbers.\"\"\""
    (.node "string_start" none "\"\"\"" .nil
      (.node "string_content" none "Adds two numbers." .nil
        (.node "string_end" none "\"\"\"" .nil .nil)))
    .nil

/-- The `return a + b` statement of the scenario tree. -/
def pyTreeAddReturn : TSTree :=
  .node "return_statement" none "return a + b"
    (.node "return" none "return" .nil
      (.node "binary_operator" none "a + b"
        (.node "identifier" (some "left") "a" .nil
          (.node "+" (some "operator") "+" .nil
            (.node "identifier" (some "right") "b" .nil .nil)))
        .nil))
    .nil

/-- The `body` block of the scenario tree: the docstring expression
statement followed by the return statement. -/
def pyTreeAddBlock : TSTree :=
  .node "block" (some "body") "\"\"\"Adds two numbers.\"\"\"\n    return a + b"
    (.node "expression_statement" none "\"\"\"Adds two numbers.\"\"\""
      pyTreeAddStringNode
      pyTreeAddReturn)
    .nil

/-- Child chain of the scenario's `function_definition`: the `def` keyword,
the `name` field, the `parameters` field, the colon and the `body` field. -/
def pyTreeAddFnChildren : TSTree :=
  .node "def" none "def" .nil
    (.node "identifier" (some "name") "add" .nil
      (.node "parameters" (some "parameters") "(a, b)"
        (.node "(" none "(" .nil
          (.node "identifier" none "a" .nil
            (.node "," none "," .nil
              (.node "identifier" none "b" .nil
                (.node ")" none ")" .nil .nil)))))
        (.node ":" none ":" .nil pyTreeAddBlock)))

/-- Modelled from the spec: the concrete syntax tree the external
`tree_sitter_python` grammar (not part of this repository) produces for
`pySrcAdd` — a `module` root containing one `function_definition` with
`name`, `parameters` and `body` fields, whose block holds the docstring
expression statement and the return statement (spec §4.2 and the §8
scenario describe exactly this shape). -/
def pyTreeAdd : TSTree :=
  .node "module" none pySrcAdd
    (.node "function_definition" none
      "def add(a, b):\n    \"\"\"Adds two numbers.\"\"\"\n    return a + b"
      pyTreeAddFnChildren .nil)
    .nil

/-- A parse function realizing the scenario (only ever consulted at
`("python", pySrcAdd)` in the theorems below). -/
def scenarioParse : String → String → TSTree := fun _ _ => pyTreeAdd

/-- Modelled from the spec: every tree-sitter grammar parses the empty
source to a bare root node with no children (spec §8: extracting from an
empty source yields empty features). -/
def bareRoot (language : String) : TSTree :=
  .node (rootNodeType language) none "" .nil .nil

/-- Input dictionary exercising the naming-convention buckets: an
all-uppercase function name and a capitalized variable name. -/
def cexFeatures : PyVal :=
  .pydict [("aggregated_features", .pydict
    [("function_names", .pylist [.pystr "FOO"]),
     ("variable_names", .pylist [.pystr "Foo"])])]

/-! ### Lemmas about stripping and normalization -/

theorem dropWhile_rdropWhile_of_self {α : Type} (p : α → Bool) (m : List α)
    (hm : m.dropWhile p = m) : (m.rdropWhile p).dropWhile p = m.rdropWhile p := by
  rcases h : m.rdropWhile p with _ | ⟨a, t⟩
  · simp
  · obtain ⟨r, hr⟩ := List.rdropWhile_prefix p m
    rw [h] at hr
    have hpa : p a = false := by
      by_contra hpa
      have hpa' : p a = true := by revert hpa; cases p a <;> simp
      rw [← hr, List.cons_append, List.dropWhile_cons, if_pos hpa'] at hm
      have h1 : (List.dropWhile p (t ++ r)).length ≤ (t ++ r).length :=
        (List.dropWhile_suffix p).length_le
      rw [hm] at h1
      simp at h1
    rw [List.dropWhile_cons, if_neg (by simp [hpa])]

theorem stripChars_idem (chars : List Char) (l : List Char) :
    stripChars chars (stripChars chars l) = stripChars chars l := by
  unfold stripChars
  set p := fun c => chars.contains c with hp
  set m := l.dropWhile p with hmdef
  have h1 : m.dropWhile p = m := List.dropWhile_idempotent p l
  rw [dropWhile_rdropWhile_of_self p m h1, List.rdropWhile_idempotent]

theorem pyStrip_idem (chars : List Char) (s : String) :
    pyStrip chars (pyStrip chars s) = pyStrip chars s := by
  unfold pyStrip
  exact congrArg String.mk (stripChars_idem chars s.data)

theorem filterMap_eq_self_of {α : Type} (f : α → Option α) (l : List α)
    (h : ∀ a ∈ l, f a = some a) : l.filterMap f = l := by
  induction l with
  | nil => rfl
  | cons a t ih =>
      rw [List.filterMap_cons, h a (by simp),
        ih (fun x hx => h x (List.mem_cons_of_mem a hx))]

/-- Membership in the normalized `strings` slot: every entry is the
fully-quote-stripped form of a raw entry and is longer than 2. -/
theorem mem_normStrings {t : String} {l : List String} (h : t ∈ normStrings l) :
    (∃ s ∈ l, t = pyStrip quoteSet s) ∧ 2 < t.length := by
  rw [normStrings, List.mem_dedup, List.mem_filterMap] at h
  obtain ⟨s, hs, hfs⟩ := h
  by_cases hlen : 2 < (pyStrip quoteSet s).length
  · simp only [hlen, if_pos] at hfs
    obtain rfl : pyStrip quoteSet s = t := Option.some.inj hfs
    exact ⟨⟨s, hs, rfl⟩, hlen⟩
  · simp only [hlen, if_neg] at hfs
    cases hfs

/-- Membership in the normalized `comments`/`docstrings` slots: every entry
is the whitespace-trimmed form of a raw entry and exceeds the bound. -/
theorem mem_normTrimmed {bound : Nat} {t : String} {l : List String}
    (h : t ∈ normTrimmed bound l) :
    (∃ s ∈ l, t = pyStripWs s) ∧ bound < t.length := by
  rw [normTrimmed, List.mem_dedup, List.mem_filterMap] at h
  obtain ⟨s, hs, hfs⟩ := h
  by_cases hlen : bound < (pyStripWs s).length
  · simp only [hlen, if_pos] at hfs
    obtain rfl : pyStripWs s = t := Option.some.inj hfs
    exact ⟨⟨s, hs, rfl⟩, hlen⟩
  · simp only [hlen, if_neg] at hfs
    cases hfs

theorem normStrings_nodup (l : List String) : (normStrings l).Nodup :=
  List.nodup_dedup _

theorem normTrimmed_nodup (bound : Nat) (l : List String) :
    (normTrimmed bound l).Nodup :=
  List.nodup_dedup _

theorem normStrings_idem (l : List String) :
    normStrings (normStrings l) = normStrings l := by
  have h : ∀ t ∈ normStrings l,
      (fun s =>
        let u := pyStrip quoteSet s
        if 2 < u.length then some u else none) t = some t := by
    intro t ht
    obtain ⟨⟨s, _, rfl⟩, hlen⟩ := mem_normStrings ht
    simp only [pyStrip_idem]
    rw [if_pos (by simpa [pyStrip_idem] using hlen)]
  conv_lhs => rw [normStrings, filterMap_eq_self_of _ _ h]
  rw [normStrings, List.dedup_idem]

theorem normTrimmed_idem (bound : Nat) (l : List String) :
    normTrimmed bound (normTrimmed bound l) = normTrimmed bound l := by
  have h : ∀ t ∈ normTrimmed bound l,
      (fun s =>
        let u := pyStripWs s
        if bound < u.length then some u else none) t = some t := by
    intro t ht
    obtain ⟨⟨s, _, rfl⟩, hlen⟩ := mem_normTrimmed ht
    simp only [pyStripWs, pyStrip_idem]
    rw [if_pos (by simpa [pyStripWs, pyStrip_idem] using hlen)]
  conv_lhs => rw [normTrimmed, filterMap_eq_self_of _ _ h]
  rw [normTrimmed, List.dedup_idem]

/-- `[c]` is an infix of `l` exactly when `c` occurs in `l`. -/
theorem isInfixChars_singleton (c : Char) (l : List Char) :
    isInfixChars [c] l = l.contains c := by
  induction l with
  | nil => rfl
  | cons b bs ih =>
      by_cases hcb : c = b <;>
        simp [isInfixChars, List.isPrefixOf, ih, List.contains_cons, hcb]

/-- An uppercase ASCII character is not lowercase. -/
theorem isLower_eq_false_of_isUpper {c : Char} (h : c.isUpper = true) :
    c.isLower = false := by
  simp only [Char.isUpper, Bool.and_eq_true, decide_eq_true_eq] at h
  simp only [Char.isLower, Bool.and_eq_false_iff]
  left
  simp only [decide_eq_false_iff_not]
  intro hge
  exact absurd (UInt32.le_trans hge h.2) (by decide)

/-! ### Claim theorems -/

/-- C1: for every source text, language and optional file path,
`extract_features` is a total function into `CodeFeatures` — it is defined
for every input and never escapes with an error — whose `language` field is
the requested language, and whenever the language has no registered parser
it returns exactly the fallback pattern extraction.  (In the embedding the
external tree-sitter parse is total, as the library's `parse` is on
well-formed text, so no "internal parser failure" exists to observe.) -/
theorem extract_features_total (parse : String → String → TSTree) (code : String)
    (language : String) (file_path : Option String) :
    (extract_features parse code language file_path).language = language ∧
    (language ∉ registeredLanguages →
      extract_features parse code language file_path =
        fallback_extraction code language file_path) := by
  constructor
  · unfold extract_features
    split
    · rfl
    · rfl
  · intro h
    unfold extract_features
    rw [if_pos h]

/-- C1 witness: at the unregistered language `"unknown"` the entry point
returns the fallback extraction with the requested language tag. -/
theorem extract_features_total_witness :
    (extract_features (fun _ _ => TSTree.nil) "x = 1" "unknown" none).language =
      "unknown" ∧
    extract_features (fun _ _ => TSTree.nil) "x = 1" "unknown" none =
      fallback_extraction "x = 1" "unknown" none :=
  ⟨(extract_features_total (fun _ _ => TSTree.nil) "x = 1" "unknown" none).1,
   (extract_features_total (fun _ _ => TSTree.nil) "x = 1" "unknown" none).2
     (by decide)⟩

/-- C2 counterexample: extraction routed to the fallback extractor applies
no minimum-length filter — on the source `"abc"` with the unregistered
language `"unknown"`, the returned `strings` field is `["c"]` (the findall
group capture), whose entry has length 1, not greater than 2. -/
theorem extract_features_length_bounds_cex :
    (extract_features (fun _ _ => TSTree.nil) "\"abc\"" "unknown" none).strings =
      ["c"] ∧ ("c" : String).length = 1 := by decide

/-- C2 (amended): whenever the requested language has a registered parser,
every entry of the returned `strings` has length strictly greater than 2,
every entry of `comments` strictly greater than 5 and every entry of
`docstrings` strictly greater than 10; the fallback path for unregistered
languages applies no such filter. -/
theorem extract_features_length_bounds (parse : String → String → TSTree)
    (code : String) (language : String) (file_path : Option String)
    (h : language ∈ registeredLanguages) :
    (∀ s ∈ (extract_features parse code language file_path).strings, 2 < s.length) ∧
    (∀ c ∈ (extract_features parse code language file_path).comments, 5 < c.length) ∧
    (∀ d ∈ (extract_features parse code language file_path).docstrings,
      10 < d.length) := by
  unfold extract_features
  rw [if_neg (by simpa using h)]
  refine ⟨fun s hs => ?_, fun c hc => ?_, fun d hd => ?_⟩
  · exact (mem_normStrings hs).2
  · exact (mem_normTrimmed hc).2
  · exact (mem_normTrimmed hd).2

/-- C2 witness: the amended bound at the concrete entry of a concrete
registered-language extraction. -/
theorem extract_features_length_bounds_witness :
    2 < ("Adds two numbers." : String).length :=
  (extract_features_length_bounds scenarioParse pySrcAdd "python" none
      (by decide)).1 "Adds two numbers." (by decide)

/-- C3 counterexample: the fallback path deduplicates nothing — on the
source `"aa" "aa"` with the unregistered language `"unknown"` the returned
`strings` field is `["a", "a"]`, which contains two equal entries. -/
theorem extract_features_nodup_cex :
    (extract_features (fun _ _ => TSTree.nil) "\"aa\" \"aa\"" "unknown" none).strings =
      ["a", "a"] ∧ ¬ (["a", "a"] : List String).Nodup := by decide

/-- C3 (amended): whenever the requested language has a registered parser,
none of the eight list fields of the returned `CodeFeatures` contains two
equal entries; the fallback path for unregistered languages returns raw,
possibly duplicated, findall results. -/
theorem extract_features_nodup (parse : String → String → TSTree) (code : String)
    (language : String) (file_path : Option String)
    (h : language ∈ registeredLanguages) :
    (extract_features parse code language file_path).strings.Nodup ∧
    (extract_features parse code language file_path).function_names.Nodup ∧
    (extract_features parse code language file_path).variable_names.Nodup ∧
    (extract_features parse code language file_path).comments.Nodup ∧
    (extract_features parse code language file_path).docstrings.Nodup ∧
    (extract_features parse code language file_path).class_names.Nodup ∧
    (extract_features parse code language file_path).method_names.Nodup ∧
    (extract_features parse code language file_path).imports.Nodup := by
  unfold extract_features
  rw [if_neg (by simpa using h)]
  exact ⟨List.nodup_dedup _, List.nodup_dedup _, List.nodup_dedup _,
    List.nodup_dedup _, List.nodup_dedup _, List.nodup_dedup _,
    List.nodup_dedup _, List.nodup_dedup _⟩

/-- C3 witness: the amended deduplication guarantee at a concrete
registered-language extraction. -/
theorem extract_features_nodup_witness :
    (extract_features scenarioParse pySrcAdd "python" none).strings.Nodup ∧
    (extract_features scenarioParse pySrcAdd "python" none).function_names.Nodup ∧
    (extract_features scenarioParse pySrcAdd "python" none).variable_names.Nodup ∧
    (extract_features scenarioParse pySrcAdd "python" none).comments.Nodup ∧
    (extract_features scenarioParse pySrcAdd "python" none).docstrings.Nodup ∧
    (extract_features scenarioParse pySrcAdd "python" none).class_names.Nodup ∧
    (extract_features scenarioParse pySrcAdd "python" none).method_names.Nodup ∧
    (extract_features scenarioParse pySrcAdd "python" none).imports.Nodup :=
  extract_features_nodup scenarioParse pySrcAdd "python" none (by decide)

/-- C4 counterexample: on the Python scenario source the extractor returns
`function_names = ["add"]` and the docstring, but `strings` is *not* empty —
the docstring is also captured as a plain string (its triple quotes are
removed by the strip-all-quotes normalization). -/
theorem python_scenario_cex :
    (extract_features scenarioParse pySrcAdd "python" none).function_names =
      ["add"] ∧
    "Adds two numbers." ∈
      (extract_features scenarioParse pySrcAdd "python" none).docstrings ∧
    (extract_features scenarioParse pySrcAdd "python" none).strings =
      ["Adds two numbers."] ∧
    (extract_features scenarioParse pySrcAdd "python" none).strings ≠ [] := by
  decide

/-- C4 (amended): for any parse function that returns the
tree-sitter-python tree of the scenario source, extraction yields
`function_names = ["add"]`, `docstrings = ["Adds two numbers."]` and
`strings = ["Adds two numbers."]` — the docstring *is* double-counted as a
plain string, surviving normalization with its quotes stripped. -/
theorem python_scenario (parse : String → String → TSTree)
    (file_path : Option String) (h : parse "python" pySrcAdd = pyTreeAdd) :
    extract_features parse pySrcAdd "python" file_path =
      { strings := ["Adds two numbers."], function_names := ["add"],
        variable_names := [], comments := [], docstrings := ["Adds two numbers."],
        class_names := [], method_names := [], imports := [],
        language := "python", file_path := file_path } := by
  unfold extract_features
  rw [if_neg (by decide), h]
  rfl

/-- C4 witness: the amended scenario at the concrete parse function. -/
theorem python_scenario_witness :
    extract_features scenarioParse pySrcAdd "python" none =
      { strings := ["Adds two numbers."], function_names := ["add"],
        variable_names := [], comments := [], docstrings := ["Adds two numbers."],
        class_names := [], method_names := [], imports := [],
        language := "python", file_path := none } :=
  python_scenario scenarioParse none rfl

/-- C5: `detect_language` is a pure total function of the path's extension
returning the unsupported outcome (`None`) for unknown (`.xyz`) or absent
extensions, and extraction requested for the undetected language tag
`"unknown"` routes to the fallback extractor and carries
`language = "unknown"` in its result. -/
theorem detect_language_unsupported :
    detect_language "project/file.xyz" = none ∧
    detect_language "noext" = none ∧
    ∀ (parse : String → String → TSTree) (code : String) (path : Option String),
      extract_features parse code "unknown" path =
        fallback_extraction code "unknown" path ∧
      (extract_features parse code "unknown" path).language = "unknown" := by
  refine ⟨by decide, by decide, fun parse code path => ⟨?_, ?_⟩⟩
  · unfold extract_features
    rw [if_pos (by decide)]
  · unfold extract_features
    rw [if_pos (by decide)]
    rfl

/-- C6 counterexample: normalization strips *every* layer of surrounding
quotes, not a single one — the raw entry `""hello""` normalizes to `hello`,
while single-layer stripping would leave `"hello"`. -/
theorem normStrings_cex :
    normStrings ["\"\"hello\"\""] = ["hello"] ∧
    ("hello" : String) ≠ "\"hello\"" := by decide

/-- C6 (amended): during normalization each raw `strings` entry has *all*
leading and trailing quote characters stripped (the result starts and ends
with no further strippable quote: re-stripping is the identity), entries of
stripped length at most 2 are discarded, and the remainder is
deduplicated. -/
theorem normStrings_spec (l : List String) :
    (∀ t ∈ normStrings l,
      (∃ s ∈ l, t = pyStrip quoteSet s) ∧ 2 < t.length ∧
        pyStrip quoteSet t = t) ∧
    (normStrings l).Nodup := by
  refine ⟨fun t ht => ?_, normStrings_nodup l⟩
  obtain ⟨⟨s, hs, rfl⟩, hlen⟩ := mem_normStrings ht
  exact ⟨⟨s, hs, rfl⟩, hlen, pyStrip_idem _ _⟩

/-- C6 witness: the amended description at a concrete raw list. -/
theorem normStrings_spec_witness :
    2 < ("abcd" : String).length ∧ pyStrip quoteSet "abcd" = "abcd" :=
  ((normStrings_spec ["\"\"abcd\"\""]).1 "abcd" (by decide)).2

/-- C7: normalization is idempotent — applying the normalization step to an
already-normalized `CodeFeatures` changes nothing (each slot's
strip/filter/dedup pipeline fixes its own output, and the slots are
disjoint, so re-application in any slot order is the identity on normalized
records). -/
theorem normalizeFeatures_idem (f : CodeFeatures) :
    normalizeFeatures (normalizeFeatures f) = normalizeFeatures f := by
  simp [normalizeFeatures, normStrings_idem, normTrimmed_idem, List.dedup_idem]

/-- C8: for every registered language, extracting from the empty source
string — whose parse is the bare grammar root with no children — yields a
`CodeFeatures` with all eight list fields empty and `language` equal to the
requested language. -/
theorem extract_features_empty_source (parse : String → String → TSTree)
    (language : String) (file_path : Option String)
    (hmem : language ∈ registeredLanguages)
    (hparse : parse language "" = bareRoot language) :
    extract_features parse "" language file_path =
      { strings := [], function_names := [], variable_names := [],
        comments := [], docstrings := [], class_names := [],
        method_names := [], imports := [],
        language := language, file_path := file_path } := by
  fin_cases hmem <;>
    (unfold extract_features; rw [if_neg (by decide), hparse]; rfl)

/-- C8 witness: the empty-source guarantee at the concrete language
`"python"` with a parse function returning the bare roots. -/
theorem extract_features_empty_source_witness :
    extract_features (fun l _ => bareRoot l) "" "python" none =
      { strings := [], function_names := [], variable_names := [],
        comments := [], docstrings := [], class_names := [],
        method_names := [], imports := [],
        language := "python", file_path := none } :=
  extract_features_empty_source (fun l _ => bareRoot l) "python" none
    (by decide) rfl

/-- C9 counterexample: the all-uppercase function name `FOO` is bucketed
`PascalCase`, not `CONSTANT` (the function-name loop has no `CONSTANT`
test), and the variable name `Foo` lands in no bucket at all — there is no
"other" bucket in the projector's output. -/
theorem naming_buckets_cex :
    pyIsUpper "FOO" = true ∧
    pyDictGet (get_code_similarity_features cexFeatures)
        "function_signature_patterns" =
      some (PyVal.pylist [PyVal.pystr "PascalCase"]) ∧
    pyDictGet (get_code_similarity_features cexFeatures)
        "variable_naming_patterns" =
      some (PyVal.pylist []) :=
  ⟨rfl, rfl, rfl⟩

/-- C9 (amended): the naming classification buckets function names (longer
than 2) into `snake_case`/`camelCase`/`PascalCase` only and variable names
(longer than 1) into `CONSTANT`/`snake_case`/`camelCase` only; names
matching no rule are skipped (no "other" bucket).  An all-uppercase
variable name is bucketed `CONSTANT`, but an all-uppercase, underscore-free
function name is bucketed `PascalCase`. -/
theorem naming_buckets_spec (s : String) :
    (∀ b, classifyFuncName (.pystr s) = .ok (some b) →
      b = "snake_case" ∨ b = "camelCase" ∨ b = "PascalCase") ∧
    (∀ b, classifyVarName (.pystr s) = .ok (some b) →
      b = "CONSTANT" ∨ b = "snake_case" ∨ b = "camelCase") ∧
    (pyIsUpper s = true → 1 < s.length →
      classifyVarName (.pystr s) = .ok (some "CONSTANT")) ∧
    (∀ c, s.data.head? = some c → c.isUpper = true →
      s.data.contains '_' = false → 2 < s.length →
      classifyFuncName (.pystr s) = .ok (some "PascalCase")) := by
  refine ⟨fun b h => ?_, fun b h => ?_, fun hup hlen => ?_, fun c hc hcu hund hlen => ?_⟩
  · unfold classifyFuncName at h
    simp only [pyLen, bind, Except.bind, pure, Except.pure] at h
    repeat' split at h
    all_goals simp_all
  · unfold classifyVarName at h
    simp only [pyLen, bind, Except.bind, pure, Except.pure] at h
    repeat' split at h
    all_goals simp_all
  · unfold classifyVarName
    simp [pyLen, pyIsUpperM, bind, Except.bind, pure, Except.pure, hlen, hup]
  · obtain ⟨tl, hdata⟩ : ∃ tl, s.data = c :: tl := by
      rcases hsd : s.data with _ | ⟨a, tl⟩
      · rw [hsd] at hc; cases hc
      · rw [hsd] at hc
        simp only [List.head?_cons, Option.some.injEq] at hc
        subst hc
        exact ⟨tl, rfl⟩
    have hlow : c.isLower = false := isLower_eq_false_of_isUpper hcu
    rw [hdata] at hund
    have hund2 : ¬ ('_' = c) ∧ ¬ ('_' ∈ tl) := by simpa using hund
    unfold classifyFuncName
    simp [pyLen, pyInStr, pyIndex0, pyIsLowerM, pyIsUpperM, pyIsLower, pyIsUpper,
      bind, Except.bind, pure, Except.pure, hdata, hlen,
      show ("_".data) = ['_'] from rfl, isInfixChars_singleton, hund, hund2, hcu, hlow]

/-- C9 witness: the amended classification at the concrete name `ABC`. -/
theorem naming_buckets_spec_witness :
    classifyVarName (.pystr "ABC") = .ok (some "CONSTANT") ∧
    classifyFuncName (.pystr "ABC") = .ok (some "PascalCase") :=
  ⟨(naming_buckets_spec "ABC").2.2.1 (by decide) (by decide),
   (naming_buckets_spec "ABC").2.2.2 'A' rfl (by decide) (by decide) (by decide)⟩

/-- C10: `get_code_similarity_features` is total and never propagates an
exception — for every input value it either returns the successfully
computed projection or, when the body's computation raises, catches the
exception and returns the empty dictionary. -/
theorem gcsf_catches_all (features : PyVal) :
    (∃ r, gcsfBody features = Except.ok r ∧
      get_code_similarity_features features = r) ∨
    (∃ e, gcsfBody features = Except.error e ∧
      get_code_similarity_features features = PyVal.pydict []) := by
  cases h : gcsfBody features with
  | ok r => exact Or.inl ⟨r, rfl, by simp [get_code_similarity_features, h]⟩
  | error e => exact Or.inr ⟨e, rfl, by simp [get_code_similarity_features, h]⟩

end SlopScan
